import Mathlib

/-!
Shallow embedding of the keama statement/expression translation engine
(`keama/parse.c` of the dhcp repository): the element tree model, the
expression-context classifiers, the operator precedence tables, the numeric
codec (`convert_num`), the aggregate parser (`parse_numeric_aggregate`),
the expression parsers (`parse_non_binary` / `parse_expression`), the
statement parsers for `if`, `switch`/`case`/`default` and `zone`, and the
scope-sensitive config rewriter (`config_valid_lifetime`).

Machine integers are modelled as `Nat` with explicit `% 2 ^ 32` where the C
code's `uint32_t` arithmetic wraps.  Fatal `parse_error` calls are modelled
as the `.error` branch of `Except`.
-/

set_option maxRecDepth 4096

namespace Keama

/-! ## The element tree model (`data.h` interface as used by `parse.c`)

An element is a tagged variant over null/boolean/integer/string/map/list;
every node carries a `skip` flag and an ordered comment list.  A map is an
insertion-ordered association list. -/

mutual

inductive ElemVal : Type where
  | vnull : ElemVal
  | vbool : Bool → ElemVal
  | vint : Int → ElemVal
  | vstr : String → ElemVal
  | vmap : List (String × Element) → ElemVal
  | vlist : List Element → ElemVal

inductive Element : Type where
  | mk : ElemVal → Bool → List String → Element

end

namespace Element

def val : Element → ElemVal
  | .mk v _ _ => v

def skip : Element → Bool
  | .mk _ s _ => s

def comments : Element → List String
  | .mk _ _ c => c

end Element

/-- `createMap()` -/
def createMap : Element := .mk (.vmap []) false []

/-- `createList()` -/
def createList : Element := .mk (.vlist []) false []

/-- `createNull()` -/
def createNull : Element := .mk .vnull false []

/-- `createString(s)` -/
def createString (s : String) : Element := .mk (.vstr s) false []

/-- `createInt(n)` / `resetInt(expr, n)` -/
def createInt (n : Int) : Element := .mk (.vint n) false []

/-- `createBool(b)` -/
def createBool (b : Bool) : Element := .mk (.vbool b) false []

/-- Set the skip flag of a node (`e->skip = ISC_TRUE`). -/
def setSkip (e : Element) : Element :=
  match e with
  | .mk v _ c => .mk v true c

/-- Append a comment to a node's comment list (`TAILQ_INSERT_TAIL(&e->comments, ...)`). -/
def addComment (e : Element) (s : String) : Element :=
  match e with
  | .mk v sk c => .mk v sk (c ++ [s])

/-- `mapSet(m, v, k)`: insert value `v` under key `k` (insertion order kept). -/
def mapSet (m : Element) (v : Element) (k : String) : Element :=
  match m with
  | .mk (.vmap es) sk c => .mk (.vmap (es ++ [(k, v)])) sk c
  | other => other

/-- `mapContains(m, k)`: `true` iff `m` is a map holding key `k`. -/
def mapContains (m : Element) (k : String) : Bool :=
  match m with
  | .mk (.vmap es) _ _ => es.any (fun p => p.1 == k)
  | _ => false

/-- `mapGet(m, k)`: first value stored under key `k`. -/
def mapGet (m : Element) (k : String) : Option Element :=
  match m with
  | .mk (.vmap es) _ _ => (es.find? (fun p => p.1 == k)).map Prod.snd
  | _ => none

/-- `listPush(l, v)` -/
def listPush (l : Element) (v : Element) : Element :=
  match l with
  | .mk (.vlist es) sk c => .mk (.vlist (es ++ [v])) sk c
  | other => other

/-- Number of entries of a map element stored under key `k`. -/
def mapCount (m : Element) (k : String) : Nat :=
  match m with
  | .mk (.vmap es) _ _ => (es.filter (fun p => p.1 == k)).length
  | _ => 0

/-! ## Expression contexts and classifiers -/

/-- `enum expression_context` as used by `parse.c`. -/
inductive ExprContext : Type where
  | context_any
  | context_boolean
  | context_data
  | context_numeric
  | context_data_or_numeric
deriving DecidableEq, Repr

open ExprContext

/-- `is_boolean_expression` (parse.c, from common/tree.c). -/
def is_boolean_expression (expr : Element) : Bool :=
  (match expr.val with | .vbool _ => true | _ => false) ||
  mapContains expr "check" ||
  mapContains expr "exists" ||
  mapContains expr "variable-exists" ||
  mapContains expr "equal" ||
  mapContains expr "not-equal" ||
  mapContains expr "regex-match" ||
  mapContains expr "iregex-match" ||
  mapContains expr "and" ||
  mapContains expr "or" ||
  mapContains expr "not" ||
  mapContains expr "known" ||
  mapContains expr "static"

/-- `is_data_expression` (parse.c, from common/tree.c).  Note that integer
literals are in this set. -/
def is_data_expression (expr : Element) : Bool :=
  (match expr.val with | .vint _ => true | .vstr _ => true | _ => false) ||
  mapContains expr "substring" ||
  mapContains expr "suffix" ||
  mapContains expr "lowercase" ||
  mapContains expr "uppercase" ||
  mapContains expr "option" ||
  mapContains expr "hardware" ||
  mapContains expr "packet" ||
  mapContains expr "concat" ||
  mapContains expr "encapsulate" ||
  mapContains expr "encode-int8" ||
  mapContains expr "encode-int16" ||
  mapContains expr "encode-int32" ||
  mapContains expr "gethostbyname" ||
  mapContains expr "binary-to-ascii" ||
  mapContains expr "filename" ||
  mapContains expr "server-name" ||
  mapContains expr "reverse" ||
  mapContains expr "pick-first-value" ||
  mapContains expr "host-decl-name" ||
  mapContains expr "leased-address" ||
  mapContains expr "config-option" ||
  mapContains expr "null" ||
  mapContains expr "gethostname" ||
  mapContains expr "v6relay"

/-- `is_numeric_expression` (parse.c, from common/tree.c). -/
def is_numeric_expression (expr : Element) : Bool :=
  (match expr.val with | .vint _ => true | _ => false) ||
  mapContains expr "extract-int8" ||
  mapContains expr "extract-int16" ||
  mapContains expr "extract-int32" ||
  mapContains expr "lease-time" ||
  mapContains expr "add" ||
  mapContains expr "subtract" ||
  mapContains expr "multiply" ||
  mapContains expr "divide" ||
  mapContains expr "remainder" ||
  mapContains expr "binary-and" ||
  mapContains expr "binary-or" ||
  mapContains expr "binary-xor" ||
  mapContains expr "client-state"

/-- `expression_context` (parse.c): the data predicate is tried first, then
numeric, then boolean, else `context_any`. -/
def expression_context (expr : Element) : ExprContext :=
  if is_data_expression expr then context_data
  else if is_numeric_expression expr then context_numeric
  else if is_boolean_expression expr then context_boolean
  else context_any

/-! ## Binary operators, `op_val`, `op_context`, `op_precedence`

The source's `enum expr_op` has many more constructors (all the builtin
unary forms); `parse_expression` only ever sets a binary operator from the
constructors below, and all remaining constructors fall into `op_val`'s
first group (value 100) and `op_context`'s first group (`context_any`). -/

inductive ExprOp : Type where
  | expr_none
  | expr_equal
  | expr_not_equal
  | expr_regex_match
  | expr_iregex_match
  | expr_and
  | expr_or
  | expr_add
  | expr_subtract
  | expr_multiply
  | expr_divide
  | expr_remainder
  | expr_binary_and
  | expr_binary_or
  | expr_binary_xor
deriving DecidableEq, Repr

open ExprOp

/-- `op_val` (parse.c).  `expr_binary_and/or/xor` sit in the "need sane
precedences" group that returns 100, together with `expr_none` and all the
non-binary constructors. -/
def op_val (op : ExprOp) : Int :=
  match op with
  | expr_none
  | expr_binary_and
  | expr_binary_or
  | expr_binary_xor => 100
  | expr_equal
  | expr_not_equal
  | expr_regex_match
  | expr_iregex_match => 4
  | expr_or
  | expr_and => 3
  | expr_add
  | expr_subtract => 2
  | expr_multiply
  | expr_divide
  | expr_remainder => 1

/-- `op_precedence` (parse.c). -/
def op_precedence (op1 op2 : ExprOp) : Int :=
  op_val op1 - op_val op2

/-- `op_context` (parse.c), restricted to the constructors above; the
non-binary constructors all return `context_any` like `expr_none`. -/
def op_context (op : ExprOp) : ExprContext :=
  match op with
  | expr_none => context_any
  | expr_equal
  | expr_not_equal
  | expr_regex_match
  | expr_iregex_match => context_data
  | expr_and => context_boolean
  | expr_or => context_boolean
  | expr_add
  | expr_subtract
  | expr_multiply
  | expr_divide
  | expr_remainder
  | expr_binary_and
  | expr_binary_or
  | expr_binary_xor => context_numeric

/-! ## The numeric codec: `convert_num` (parse.c)

`convert_num(cfile, buf, str, base, size)` decodes token text `str` in base
`base` (0 = infer from prefix) and writes the value big-endian at width
`size` bits into `buf`.  `parse_error` is fatal; the distinct fatal
conditions are modelled as `ConvErr` constructors.  The accumulator is the
C `uint32_t val`, hence `% 2 ^ 32`.  The range bound `max` is a C `int`
compared against the `uint32_t` accumulator, so it is read back modulo
`2 ^ 32`: for size 32 the expression `(1 << 31) + ((1 << 31) - 1)` wraps to
the unsigned value `2 ^ 32 - 1`, which the formula below reproduces. -/

inductive ConvErr : Type where
  /-- "Bogus number": a character below '0' (or an empty digit run, where
  the C do-while reads the NUL terminator). -/
  | bogus
  /-- "digit %d not in base %d" -/
  | digitNotInBase
  /-- "%s exceeds max (%d) for precision" -/
  | overflow
  /-- "Unexpected integer size" -/
  | badSize
deriving DecidableEq, Repr

/-- The digit-decoding step of `convert_num`'s loop: `tval = *ptr++` then
the cascade over 'a' / 'A' / '0'. -/
def digit_val (c : Char) : Except ConvErr Nat :=
  if c.toNat ≥ 'a'.toNat then .ok (c.toNat - 'a'.toNat + 10)
  else if c.toNat ≥ 'A'.toNat then .ok (c.toNat - 'A'.toNat + 10)
  else if c.toNat ≥ '0'.toNat then .ok (c.toNat - '0'.toNat)
  else .error .bogus

/-- The accumulation loop of `convert_num`: `val = val * base + tval` on a
`uint32_t` accumulator, rejecting digits not below the base. -/
def conv_digits (base : Nat) : List Char → Nat → Except ConvErr Nat
  | [], v => .ok v
  | c :: rest, v =>
    match digit_val c with
    | .error e => .error e
    | .ok t =>
      if t ≥ base then .error .digitNotInBase
      else conv_digits base rest ((v * base + t) % 2 ^ 32)

/-- Base inference of `convert_num` when called with `base = 0`:
leading "0x" is hex, leading '0' followed by an ASCII digit is octal,
otherwise decimal.  Returns the base and the remaining digit characters. -/
def infer_base (digits : List Char) : Nat × List Char :=
  match digits with
  | '0' :: 'x' :: rest => (16, rest)
  | '0' :: c :: rest =>
    if c.toNat < 128 && '0'.toNat ≤ c.toNat && c.toNat ≤ '9'.toNat
    then (8, c :: rest) else (10, '0' :: c :: rest)
  | other => (10, other)

/-- Big-endian byte encoding of `v mod 2 ^ (8 * width)` over `width` bytes
(`putUShort`/`putULong` use `htons`/`htonl`, i.e. network byte order). -/
def encode_be (width : Nat) (v : Nat) : List Nat :=
  (List.range width).map (fun i => v / 2 ^ (8 * (width - 1 - i)) % 2 ^ 8)

/-- The leading-minus detection of `convert_num` (`if (*ptr == '-')`; an
empty text leaves `*ptr` at the NUL terminator, which is not a minus). -/
def sign_split (s : List Char) : Bool × List Char :=
  match s with
  | c :: r => if c = '-' then (true, r) else (false, c :: r)
  | [] => (false, [])

/-- The digit loop, range check and store of `convert_num` after the sign
and base have been settled.  The negative branch stores the two's
complement `(-val)` truncated at the requested width; the `switch (size)`
is the if-chain. -/
def convert_num_core (negative : Bool) (digits : List Char) (base size : Nat) :
    Except ConvErr (List Nat) :=
  if digits.isEmpty then .error .bogus else
  match conv_digits base digits 0 with
  | .error e => .error e
  | .ok v =>
    let bound : Nat := (if negative then 2 ^ (size - 1) else 2 ^ size - 1) % 2 ^ 32
    if v > bound then .error .overflow
    else
      let stored : Nat := if negative then (2 ^ 32 - v) % 2 ^ 32 else v
      if size = 8 then .ok (encode_be 1 stored)
      else if size = 16 then .ok (encode_be 2 stored)
      else if size = 32 then .ok (encode_be 4 stored)
      else .error .badSize

/-- `convert_num` as a pure function from the token text to either a fatal
condition or the encoded bytes. -/
def convert_num (str : List Char) (base : Nat) (size : Nat) :
    Except ConvErr (List Nat) :=
  let (negative, rest) := sign_split str
  let (b, digits) := if base = 0 then infer_base rest else (base, rest)
  convert_num_core negative digits b size

/-! ## Tokens and the parser state

`enum dhcp_token` constructors used by the embedded grammar fragments; the
lexer supplies one-token lookahead (`peek_token`) and consumption
(`next_token` / `skip_token`). -/

inductive Token : Type where
  | NUMBER : String → Token
  | NUMBER_OR_NAME : String → Token
  | NAME : String → Token
  | STRING : String → Token
  | DOT | COLON | SEMI | COMMA
  | LPAREN | RPAREN | LBRACE | RBRACE
  | BANG | EQUAL | TILDE
  | PLUS | MINUS | SLASH | ASTERISK | PERCENT
  | AMPERSAND | PIPE | CARET
  | AND | OR | TOKEN_NOT
  | IF | ELSE | ELSIF
  | SWITCH | CASE | DEFAULT
  | PRIMARY | SECONDARY | PRIMARY6 | SECONDARY6 | KEY
  | END_OF_FILE
deriving DecidableEq, Repr

/-- The parser state visible to the embedded fragments: the remaining token
stream, the process-wide issue counter, and the statement-level `*lose`
out-parameter that the C threads by pointer through the whole call tree. -/
structure PState : Type where
  tokens : List Token
  issues : Nat
  lose : Bool
deriving Repr

/-- `peek_token`: the lexer returns `END_OF_FILE` once the stream is
exhausted. -/
def peek (st : PState) : Token :=
  match st.tokens with
  | [] => .END_OF_FILE
  | t :: _ => t

/-- `next_token` / `skip_token`: consume one token. -/
def advance (st : PState) : PState :=
  match st.tokens with
  | [] => st
  | _ :: r => { st with tokens := r }

/-- Bump the issue counter (`cfile->issue_counter++`). -/
def bump (st : PState) : PState :=
  { st with issues := st.issues + 1 }

/-- The token text (`val`) the lexer hands back for literal-carrying
tokens. -/
def tokenText : Token → String
  | .NUMBER s => s
  | .NUMBER_OR_NAME s => s
  | .NAME s => s
  | .STRING s => s
  | _ => ""

/-! ## The aggregate parser: `parse_numeric_aggregate` (parse.c)

Parses `separator`-delimited numbers: exactly `max` of them when `max` is
nonzero (missing separator = fatal "too few numbers"), as many as the
separator joins when `max` is zero.  Result: the concatenated fixed-width
encodings plus the count actually parsed (written back through `*max`).
Fuel bounds the `max = 0` loop; each iteration consumes at least one
token, so `tokens.length + 1` suffices. -/

def pna_loop (max : Nat) (sep : Token) (base size : Nat) :
    Nat → PState → Nat → List Nat → Except String (List Nat × Nat × PState)
  | 0, _, _, _ => .error "out of fuel"
  | fuel + 1, st, count, acc =>
    if count ≠ 0 && peek st != sep then
      -- the `break` out of the do-while when no maximum was requested,
      -- the fatal "too few numbers" otherwise
      if max = 0 then .ok (acc, count, st) else .error "too few numbers."
    else
      let st1 := if count ≠ 0 then advance st else st
      let tok := peek st1
      let st2 := advance st1
      if tok = .END_OF_FILE then
        .error "unexpected end of file"
      else if (match tok with
               | .NUMBER _ => false
               | .NUMBER_OR_NAME _ => !(base = 16)
               | _ => true) then
        .error "expecting numeric value."
      else
        match convert_num (tokenText tok).toList base size with
        | .error _ => .error "convert_num failed"
        | .ok bytes =>
          if count + 1 = max then .ok (acc ++ bytes, count + 1, st2)
          else pna_loop max sep base size fuel st2 (count + 1) (acc ++ bytes)

/-- `parse_numeric_aggregate`, returning the byte string, the final value
of `*max` (the count parsed) and the remaining state. -/
def parse_numeric_aggregate (st : PState) (max : Nat) (sep : Token)
    (base size : Nat) : Except String (List Nat × Nat × PState) :=
  pna_loop max sep base size (st.tokens.length + 1) st 0 []

/-! ## Resynchronization helpers (`skip_to_semi` / `skip_to_rbrace`) -/

def skip_to_rbrace_go : Nat → PState → Nat → PState
  | 0, st, _ => st
  | fuel + 1, st, bc =>
    match peek st with
    | .RBRACE =>
      let bc1 := if bc > 0 then bc - 1 else bc
      if bc1 = 0 then advance st
      else skip_to_rbrace_go fuel (advance st) bc1
    | .LBRACE => skip_to_rbrace_go fuel (advance st) (bc + 1)
    | .SEMI =>
      if bc = 0 then advance st
      else skip_to_rbrace_go fuel (advance st) bc
    | .END_OF_FILE => st
    | _ => skip_to_rbrace_go fuel (advance st) bc

/-- `skip_to_rbrace(cfile, brace_count)` -/
def skip_to_rbrace (st : PState) (bc : Nat) : PState :=
  skip_to_rbrace_go (st.tokens.length + 1) st bc

/-- `skip_to_semi(cfile)` -/
def skip_to_semi (st : PState) : PState :=
  skip_to_rbrace st 0

/-- The "try to even things up" loop of `parse_if_statement`: consume
tokens up to and including the next right brace (or end of file). -/
def consume_to_rbrace_go : Nat → PState → PState
  | 0, st => st
  | fuel + 1, st =>
    let tok := peek st
    let st1 := advance st
    if tok = .END_OF_FILE || tok = .RBRACE then st1
    else consume_to_rbrace_go fuel st1

def consume_to_rbrace (st : PState) : PState :=
  consume_to_rbrace_go (st.tokens.length + 1) st

/-! ## Leaf helpers for the expression grammar -/

/-- C `atoi` on a token text (optional minus, leading decimal digits). -/
def atoiDigits : List Char → Nat → Nat
  | [], acc => acc
  | c :: r, acc =>
    if '0'.toNat ≤ c.toNat && c.toNat ≤ '9'.toNat
    then atoiDigits r (acc * 10 + (c.toNat - '0'.toNat))
    else acc

def atoi (s : String) : Int :=
  match s.toList with
  | '-' :: rest => -(atoiDigits rest 0 : Int)
  | l => (atoiDigits l 0 : Int)

/-- Lowercase hex digit, for the `"%02hhx"` formatting in `parse_cshl`. -/
def hexChar (n : Nat) : Char :=
  if n < 10 then Char.ofNat ('0'.toNat + n) else Char.ofNat ('a'.toNat + n - 10)

def hex2 (b : Nat) : String :=
  String.mk [hexChar (b / 16 % 16), hexChar (b % 16)]

/-- `parse_cshl` loop: colon-separated hex bytes folded into a
colon-joined lowercase hex string. -/
def cshl_loop : Nat → PState → String → Bool → Except String (String × PState)
  | 0, _, _, _ => .error "out of fuel"
  | fuel + 1, st, acc, first =>
    match peek st with
    | .NUMBER s | .NUMBER_OR_NAME s =>
      let st1 := advance st
      match convert_num s.toList 16 8 with
      | .error _ => .error "convert_num failed"
      | .ok bytes =>
        let acc := acc ++ (if first then "" else ":") ++ hex2 (bytes.headD 0)
        if peek st1 = .COLON then cshl_loop fuel (advance st1) acc false
        else .ok (acc, st1)
    | _ => .error "expecting hexadecimal number."

/-- `parse_cshl` (parse.c). -/
def parse_cshl (st : PState) : Except String (String × PState) :=
  cshl_loop (st.tokens.length + 1) st "" true

/-! ## The binary expression parser (`parse_expression`, parse.c)

Results: `.error` is a fatal `parse_error`; `POut.fail` is the
`ISC_FALSE` return with the shared `*lose` flag carried in the state. -/

inductive POut (α : Type) : Type where
  | ok : α → PState → POut α
  | fail : PState → POut α

/-- The binary-operator scan at the head of `parse_expression`'s `switch
(token)`: `BANG` and `TILDE` consume their first token and peek at the
second, the rest only peek.  Returns `expr_none` for an unrecognized
token. -/
def scan_binop (st : PState) : Except String (ExprOp × PState) :=
  match peek st with
  | .BANG =>
    let st1 := advance st
    if peek st1 = .EQUAL then .ok (expr_not_equal, st1)
    else .error "! in boolean context without ="
  | .EQUAL => .ok (expr_equal, st)
  | .TILDE =>
    let st1 := advance st
    match peek st1 with
    | .TILDE => .ok (expr_iregex_match, st1)
    | .EQUAL => .ok (expr_regex_match, st1)
    | _ => .error "expecting ~= or ~~ operator"
  | .AND => .ok (expr_and, st)
  | .OR => .ok (expr_or, st)
  | .PLUS => .ok (expr_add, st)
  | .MINUS => .ok (expr_subtract, st)
  | .SLASH => .ok (expr_divide, st)
  | .ASTERISK => .ok (expr_multiply, st)
  | .PERCENT => .ok (expr_remainder, st)
  | .AMPERSAND => .ok (expr_binary_and, st)
  | .PIPE => .ok (expr_binary_or, st)
  | .CARET => .ok (expr_binary_xor, st)
  | _ => .ok (expr_none, st)

/-- The canonical name a binary operator is stored under. -/
def binop_name : ExprOp → String
  | expr_not_equal => "not-equal"
  | expr_equal => "equal"
  | expr_iregex_match => "iregex-match"
  | expr_regex_match => "regex-match"
  | expr_and => "and"
  | expr_or => "or"
  | expr_add => "add"
  | expr_subtract => "subtract"
  | expr_divide => "divide"
  | expr_multiply => "multiply"
  | expr_remainder => "remainder"
  | expr_binary_and => "binary-and"
  | expr_binary_or => "binary-or"
  | expr_binary_xor => "binary-xor"
  | expr_none => "none"

/-- The cross-operand compatibility test of `parse_expression`: a fatal
error exactly when both contexts differ and neither is `context_any`. -/
def operands_compatible (lhs_context rhs_context : ExprContext) : Bool :=
  !(rhs_context ≠ context_any && lhs_context ≠ context_any &&
    rhs_context ≠ lhs_context)

/-- The operand-context validation block of `parse_expression` (the
`switch (binop)` with the `data_numeric` / `boolean` / `numeric` labels).
Returns the fatal message, if any. -/
def validate_binop (binop : ExprOp) (lhs rhs : Element) : Option String :=
  let rhs_context := expression_context rhs
  let lhs_context := expression_context lhs
  if !operands_compatible lhs_context rhs_context then
    some "illegal expression relating different types"
  else
    match binop with
    | expr_not_equal | expr_equal =>
      if rhs_context ≠ context_data_or_numeric && rhs_context ≠ context_data &&
         rhs_context ≠ context_numeric && rhs_context ≠ context_any
      then some "expecting data/numeric expression" else none
    | expr_iregex_match => none
    | expr_regex_match =>
      if expression_context rhs ≠ context_data
      then some "expecting data expression" else none
    | expr_and | expr_or =>
      if rhs_context ≠ context_boolean && rhs_context ≠ context_any
      then some "expecting boolean expressions" else none
    | expr_add | expr_subtract | expr_divide | expr_multiply | expr_remainder
    | expr_binary_and | expr_binary_or | expr_binary_xor =>
      if rhs_context ≠ context_numeric && rhs_context ≠ context_any
      then some "expecting numeric expressions" else none
    | expr_none => none

/-- The inner node of a binary combination: a fresh map, skip flag set,
then `"left"` and `"right"` inserted (parse.c, binary node construction in
`parse_expression`). -/
def binary_inner (l r : Element) : Element :=
  mapSet (mapSet (setSkip createMap) l "left") r "right"

/-- A complete binary combination: the inner left/right node stored under
the operator's canonical name in a fresh map.  Both the final combination
(`mapSet(expr, tmp, binop_name)`) and the intermediate left-associated one
(`lhs = createMap(); mapSet(lhs, tmp, binop_name)`) have this shape. -/
def mk_binary (name : String) (l r : Element) : Element :=
  mapSet createMap (binary_inner l r) name

/-- Shape of an `if` statement's map (parse.c `parse_if_statement`):
`condition`, `then` and optionally `else` inside a skip-flagged map stored
under `"if"`. -/
def mk_if (cond thenB : Element) (elseB : Option Element) : Element :=
  let statement := mapSet (mapSet (setSkip createMap) cond "condition") thenB "then"
  let statement :=
    match elseB with
    | some e => mapSet statement e "else"
    | none => statement
  mapSet createMap statement "if"

/-- Shape of a `switch` statement's map (parse.c
`parse_switch_statement`). -/
def mk_switch (cond body : Element) : Element :=
  mapSet createMap (mapSet (mapSet (setSkip createMap) cond "condition") body "body") "switch"

mutual

/-- `parse_non_binary` (parse.c), restricted to the token cases the
development exercises: `TOKEN_NOT`, `LPAREN`, `STRING`, `NUMBER`,
`NUMBER_OR_NAME` and the default `NAME` case (function call / variable
reference).  The remaining builtin cases (`CHECK`, `EXISTS`, `SUBSTRING`,
...) have their own keyword tokens, which this token type does not carry;
every constructor of `Token` reaching the C `default:` label without being
a `NAME`/`NUMBER_OR_NAME` yields `ISC_FALSE` with `*lose` untouched. -/
def parse_non_binary : Nat → ExprContext → PState → Except String (POut Element)
  | 0, _, _ => .error "out of fuel"
  | fuel + 1, context, st =>
    match peek st with
    | .TOKEN_NOT => do
      let st1 := advance st
      match ← parse_non_binary fuel context_boolean st1 with
      | .fail st2 =>
        if !st2.lose then .error "expression expected"
        else .ok (.fail { st2 with lose := true })
      | .ok nexp st2 =>
        if !is_boolean_expression nexp then .error "boolean expression expected"
        else
          let (nexp, st3) :=
            if !nexp.skip then (setSkip nexp, bump st2) else (nexp, st2)
          .ok (.ok (mapSet createMap nexp "not") st3)
    | .LPAREN => do
      let st1 := advance st
      match ← parse_expression fuel context none expr_none st1 with
      | .fail st2 =>
        if !st2.lose then .error "expression expected"
        else .ok (.fail { st2 with lose := true })
      | .ok e st2 =>
        if peek st2 = .RPAREN then .ok (.ok e (advance st2))
        else .error "right paren expected"
    | .STRING s => .ok (.ok (createString s) (advance st))
    | .NUMBER s =>
      if context = context_numeric || context = context_data_or_numeric then
        .ok (.ok (createInt (atoi s)) (advance st))
      else
        match parse_cshl st with
        | .error e => .error e
        | .ok (data, st1) => .ok (.ok (createString data) st1)
    | .NUMBER_OR_NAME _ =>
      match parse_cshl st with
      | .error e => .error e
      | .ok (data, st1) => .ok (.ok (createString data) st1)
    | .NAME s =>
      let st1 := advance st
      if peek st1 = .LPAREN then do
        let st2 := advance st1
        match ← parse_funcall_args fuel st2 createList with
        | .fail st3 => .ok (.fail st3)
        | .ok chain st3 =>
          let nexp := mapSet (mapSet (setSkip createMap) (createString s) "name")
                        chain "arguments"
          .ok (.ok (mapSet createMap nexp "funcall") (bump st3))
      else
        .ok (.ok (mapSet createMap (setSkip (createString s)) "variable-reference")
               (bump st1))
    | _ => .ok (.fail st)

/-- The argument-list loop of the function-call branch of
`parse_non_binary`: comma-separated expressions at `context_any`, closed
by a right parenthesis. -/
def parse_funcall_args : Nat → PState → Element → Except String (POut Element)
  | 0, _, _ => .error "out of fuel"
  | fuel + 1, st, chain => do
    match ← parse_expression fuel context_any none expr_none st with
    | .fail st1 =>
      if !st1.lose then .error "expecting expression."
      else .ok (.fail (skip_to_semi st1))
    | .ok arg st1 =>
      let chain := listPush chain arg
      let tok := peek st1
      let st2 := advance st1
      if tok = .COMMA then parse_funcall_args fuel st2 chain
      else if tok ≠ .RPAREN then .error "Right parenthesis expected."
      else .ok (.ok chain st2)

/-- `parse_expression` (parse.c): precedence climbing.  `lhs? = none`
models the entry `lhs == NULL`; the `goto new_rhs` loop is the recursion
with `lhs? = some _`. -/
def parse_expression : Nat → ExprContext → Option Element → ExprOp → PState → Except String (POut Element)
  | 0, _, _, _, _ => .error "out of fuel"
  | fuel + 1, context, lhs?, binop, st => do
    match ← parse_non_binary fuel context st with
    | .fail st1 =>
      match lhs? with
      | some _ =>
        if !st1.lose then .error "expecting right-hand side."
        else .ok (.fail st1)
      | none => .ok (.fail st1)
    | .ok rhs st1 => do
      let (next_op, st2) ←
        match scan_binop st1 with
        | .error e => Except.error e
        | .ok p => pure p
      -- every recognized-operator case of the switch sets
      -- `context = expression_context(rhs)`
      let context := if next_op ≠ expr_none then expression_context rhs else context
      match lhs? with
      | none =>
        if next_op = expr_none then .ok (.ok rhs st2)
        else parse_expression fuel context (some rhs) next_op (advance st2)
      | some lhs =>
        if binop ≠ expr_none && next_op ≠ expr_none &&
           decide (op_precedence binop next_op < 0) then do
          -- the new operator binds by the table: eat it and recurse so the
          -- parsed rhs becomes the lhs of the new operator
          let st3 := advance st2
          match ← parse_expression fuel (op_context next_op) (some rhs) next_op st3 with
          | .fail st4 =>
            if !st4.lose then .error "expecting a subexpression"
            else .ok (.fail st4)
          | .ok rhs2 st4 =>
            -- `next_op = expr_none` now: validate and do the final combine
            match validate_binop binop lhs rhs2 with
            | some msg => .error msg
            | none => .ok (.ok (mk_binary (binop_name binop) lhs rhs2) st4)
        else
          match (if binop ≠ expr_none then validate_binop binop lhs rhs else none) with
          | some msg => .error msg
          | none =>
            if next_op = expr_none then
              .ok (.ok (mk_binary (binop_name binop) lhs rhs) st2)
            else
              parse_expression fuel context
                (some (mk_binary (binop_name binop) lhs rhs)) next_op (advance st2)

/-- `parse_boolean_expression` (parse.c): a `context_boolean` expression
that must be boolean, a variable reference, or a function call. -/
def parse_boolean_expression : Nat → PState → Except String (POut Element)
  | 0, _ => .error "out of fuel"
  | fuel + 1, st =>
    match parse_expression fuel context_boolean none expr_none st with
    | .error e => .error e
    | .ok (.fail st1) => .ok (.fail st1)
    | .ok (.ok e st1) =>
      if !is_boolean_expression e && !mapContains e "variable-reference" &&
         !mapContains e "funcall" then
        .error "Expecting a boolean expression."
      else .ok (.ok e st1)

/-- `parse_if_statement` (parse.c): optional parenthesized boolean
condition, braced then-branch, optional `else`/`elsif` tail.  The result
element is the `{"if": ...}` map inserted into the caller's statement. -/
def parse_if_statement : Nat → PState → Except String (POut Element)
  | 0, _ => .error "out of fuel"
  | fuel + 1, st => do
    let st := bump st  -- statement->skip = ISC_TRUE; cfile->issue_counter++
    let (parenp, st) :=
      if peek st = .LPAREN then (true, advance st) else (false, st)
    match ← parse_boolean_expression fuel st with
    | .fail st1 =>
      if !st1.lose then .error "boolean expression expected."
      else .ok (.fail { st1 with lose := true })
    | .ok cond st1 => do
      let st2 ←
        if parenp then
          if peek st1 = .RPAREN then pure (advance st1)
          else Except.error "expecting right paren."
        else pure st1
      if peek st2 ≠ .LBRACE then .error "left brace expected."
      else
        let st3 := advance st2
        match ← parse_executable_statements fuel context_any st3 createList with
        | .fail st4 => .ok (.fail (consume_to_rbrace st4))
        | .ok thenB st4 =>
          if peek st4 ≠ .RBRACE then .error "right brace expected."
          else
            let st5 := advance st4
            match peek st5 with
            | .ELSE =>
              let st6 := advance st5
              match peek st6 with
              | .IF => do
                let st7 := advance st6
                match ← parse_if_statement fuel st7 with
                | .fail st8 =>
                  if !st8.lose then .error "expecting if statement"
                  else .ok (.fail { st8 with lose := true })
                | .ok elseB st8 => .ok (.ok (mk_if cond thenB (some elseB)) st8)
              | .LBRACE => do
                let st7 := advance st6
                match ← parse_executable_statements fuel context_any st7 createList with
                | .fail st8 => .ok (.fail st8)
                | .ok elseB st8 =>
                  if peek st8 ≠ .RBRACE then .error "right brace expected."
                  else .ok (.ok (mk_if cond thenB (some elseB)) (advance st8))
              | _ => .error "left brace or if expected."
            | .ELSIF => do
              let st6 := advance st5
              match ← parse_if_statement fuel st6 with
              | .fail st7 =>
                if !st7.lose then .error "expecting conditional."
                else .ok (.fail { st7 with lose := true })
              | .ok elseB st7 => .ok (.ok (mk_if cond thenB (some elseB)) st7)
            | _ => .ok (.ok (mk_if cond thenB none) st5)

/-- `parse_switch_statement` (parse.c): the condition is parsed at
`context_data_or_numeric`, and the body's case context is
`context_data` exactly when `is_data_expression(cond)` holds,
`context_numeric` otherwise. -/
def parse_switch_statement : Nat → PState → Except String (POut Element)
  | 0, _ => .error "out of fuel"
  | fuel + 1, st => do
    let st := bump st  -- statement->skip = ISC_TRUE; cfile->issue_counter++
    if peek st ≠ .LPAREN then .error "expecting left brace."
    else
      let st1 := advance st
      match ← parse_expression fuel context_data_or_numeric none expr_none st1 with
      | .fail st2 =>
        if !st2.lose then .error "expecting data or numeric expression."
        else .ok (.fail st2)
      | .ok cond st2 =>
        if peek st2 ≠ .RPAREN then .error "right paren expected."
        else
          let st3 := advance st2
          if peek st3 ≠ .LBRACE then .error "left brace expected."
          else
            let st4 := advance st3
            let cc := if is_data_expression cond then context_data else context_numeric
            match ← parse_executable_statements fuel cc st4 createList with
            | .fail st5 =>
              -- the C checks `*lose` here, but a statements failure always
              -- carries it
              .ok (.fail (skip_to_rbrace st5 1))
            | .ok body st5 =>
              if peek st5 ≠ .RBRACE then .error "right brace expected."
              else .ok (.ok (mk_switch cond body) (advance st5))

/-- `parse_case_statement` (parse.c): `CASE expr COLON` at the
surrounding case context. -/
def parse_case_statement : Nat → ExprContext → PState → Except String (POut Element)
  | 0, _, _ => .error "out of fuel"
  | fuel + 1, case_context, st => do
    match ← parse_expression fuel case_context none expr_none st with
    | .fail st1 =>
      if !st1.lose then .error "expecting case expression."
      else .ok (.fail { (skip_to_semi { st1 with lose := true }) with lose := true })
    | .ok expr st1 =>
      if peek st1 ≠ .COLON then .error "colon expected."
      else .ok (.ok (mapSet createMap expr "case") (advance st1))

/-- `parse_executable_statement` (parse.c), restricted to the statement
keywords the development exercises (`IF`, `SWITCH`, `CASE`, `DEFAULT`
followed by a colon).  A bare `case`/`default` with `case_context ==
context_any` is the fatal "inappropriate scope" error.  Identifier-led
statements go through the external option registry and are not embedded;
all other tokens take the C `default:` exit `*lose = ISC_FALSE; return
ISC_FALSE;`. -/
def parse_executable_statement : Nat → ExprContext → PState → Except String (POut Element)
  | 0, _, _ => .error "out of fuel"
  | fuel + 1, case_context, st =>
    match peek st with
    | .IF => parse_if_statement fuel (advance st)
    | .SWITCH => parse_switch_statement fuel (advance st)
    | .CASE =>
      let st1 := advance st
      if case_context = context_any then
        .error "case statement in inappropriate scope."
      else parse_case_statement fuel case_context st1
    | .DEFAULT =>
      let st1 := advance st
      if peek st1 = .COLON then
        let st2 := advance st1
        if case_context = context_any then
          .error "switch default statement in inappropriate scope."
        else .ok (.ok (mapSet createMap (setSkip createNull) "default") (bump st2))
      else .error "unembedded branch: default option statement"
    | .NAME _ | .NUMBER_OR_NAME _ =>
      .error "unembedded branch: identifier-led statement"
    | _ => .ok (.fail { st with lose := false })

/-- `parse_executable_statements` (parse.c): repeat
`parse_executable_statement` until it declines; the loop result is `TRUE`
iff `*lose` is clear. -/
def parse_executable_statements : Nat → ExprContext → PState → Element → Except String (POut Element)
  | 0, _, _, _ => .error "out of fuel"
  | fuel + 1, case_context, st, acc => do
    match ← parse_executable_statement fuel case_context st with
    | .ok stmt st1 => parse_executable_statements fuel case_context st1 (listPush acc stmt)
    | .fail st1 =>
      if !st1.lose then .ok (.ok acc st1) else .ok (.fail st1)

end

/-! ## `parse_zone` (parse.c)

The address-value leaves (`parse_ip_addr_or_hostname`, which calls the
external resolver `gethostbyname`, `parse_ip6_addr_txt` and
`parse_host_name`) only consume tokens and produce a text value; they are
abstracted as parameters, so the duplicate-key behaviour is established
for every behaviour of those leaves.  A leaf returning `none` models its
`NULL` return. -/

/-- A token-consuming leaf value parser; `.error` is a fatal
`parse_error` raised inside the leaf. -/
abbrev LeafParser := PState → Except String (Option (String × PState))

/-- The `do { value; token } while (token == COMMA)` list of one
`primary`/`secondary` statement (labels `consemup`/`consemup6`). -/
def parse_zone_values (leaf : LeafParser) (errMsg : String) :
    Nat → PState → Element → Except String (Element × PState)
  | 0, _, _ => .error "out of fuel"
  | fuel + 1, st, values => do
    match ← leaf st with
    | none => .error errMsg
    | some (value, st1) =>
      let values := listPush values (createString value)
      let tok := peek st1
      let st2 := advance st1
      if tok = .COMMA then parse_zone_values leaf errMsg fuel st2 values
      else if tok ≠ .SEMI then .error "expecting semicolon."
      else .ok (values, st2)

/-- The `do { ... } while (!done)` statement loop of `parse_zone`.  In the
C the fresh list is inserted into the zone map before being filled through
the live pointer; functionally the filled list is inserted at the same
position. -/
def parse_zone_body (ip4 ip6 host : LeafParser) :
    Nat → Element → PState → Except String (Element × PState)
  | 0, _, _ => .error "out of fuel"
  | fuel + 1, zone, st =>
    match peek st with
    | .PRIMARY =>
      if mapContains zone "primary" then .error "more than one primary."
      else
        match parse_zone_values ip4 "expecting IP addr or hostname."
            ((advance st).tokens.length + 1) (advance st) createList with
        | .error e => .error e
        | .ok (values, st2) =>
          parse_zone_body ip4 ip6 host fuel (mapSet zone values "primary") st2
    | .SECONDARY =>
      if mapContains zone "secondary" then .error "more than one secondary."
      else
        match parse_zone_values ip4 "expecting IP addr or hostname."
            ((advance st).tokens.length + 1) (advance st) createList with
        | .error e => .error e
        | .ok (values, st2) =>
          parse_zone_body ip4 ip6 host fuel (mapSet zone values "secondary") st2
    | .PRIMARY6 =>
      if mapContains zone "primary6" then .error "more than one primary6."
      else
        match parse_zone_values ip6 "expecting IPv6 addr."
            ((advance st).tokens.length + 1) (advance st) createList with
        | .error e => .error e
        | .ok (values, st2) =>
          parse_zone_body ip4 ip6 host fuel (mapSet zone values "primary6") st2
    | .SECONDARY6 =>
      if mapContains zone "secondary6" then .error "more than one secondary6."
      else
        match parse_zone_values ip6 "expecting IPv6 addr."
            ((advance st).tokens.length + 1) (advance st) createList with
        | .error e => .error e
        | .ok (values, st2) =>
          parse_zone_body ip4 ip6 host fuel (mapSet zone values "secondary6") st2
    | .KEY =>
      match (match peek (advance st) with
             | .STRING s => Except.ok (s, advance (advance st))
             | _ =>
               match host (advance st) with
               | .error e => .error e
               | .ok none => .error "expecting key name."
               | .ok (some p) => .ok p) with
      | .error e => .error e
      | .ok (key_name, st2) =>
        if mapContains zone "key" then .error "Multiple key definitions"
        else
          -- parse_semi
          if peek st2 ≠ .SEMI then .error "semicolon expected."
          else parse_zone_body ip4 ip6 host fuel
            (mapSet zone (createString key_name) "key") (advance st2)
    | _ => .ok (zone, st)

/-- `parse_zone` (parse.c): left brace, the statement loop, right
brace. -/
def parse_zone (ip4 ip6 host : LeafParser) (fuel : Nat) (zone : Element)
    (st : PState) : Except String (Element × PState) :=
  if peek st ≠ .LBRACE then .error "expecting left brace"
  else
    match parse_zone_body ip4 ip6 host fuel zone (advance st) with
    | .error e => .error e
    | .ok (zone, st1) =>
      if peek st1 ≠ .RBRACE then .error "expecting right brace."
      else .ok (zone, advance st1)

/-! ## The scope-sensitive config rewriter: `config_valid_lifetime` (parse.c)

`parse_config_statement` routes option code 1 (`default-lease-time`) here
when parsed at top level (`result == NULL`).  The declaration stack is
modelled as its frame kinds, indexed as in the C (`0` is the synthetic
root, `stack_top` the innermost frame). -/

inductive DeclKind : Type where
  | ROOT_GROUP
  | HOST_DECL
  | GROUP_DECL
  | SHARED_NET_DECL
  | SUBNET_DECL
  | CLASS_DECL
  | POOL_DECL
  | PARAMETER
deriving DecidableEq, Repr

open DeclKind

/-- Frame kinds at which a lease-time-like value may legally live. -/
def cvl_legal (k : DeclKind) : Bool :=
  k = ROOT_GROUP || k = SHARED_NET_DECL || k = SUBNET_DECL || k = GROUP_DECL

/-- The `for (where = cfile->stack_top; where > 0; --where)` walk of
`config_valid_lifetime`: skip `PARAMETER` frames, break at a legal frame,
skip `POOL_DECL` frames recording the move, break at any other frame
recording the unsupported scope.  Returns the landing index, the
`pop_from_pool` flag, and whether the landing frame is unsupported. -/
def cvl_walk (kinds : Nat → DeclKind) : Nat → Bool → Nat × Bool × Bool
  | 0, pop => (0, pop, false)
  | w + 1, pop =>
    let k := kinds (w + 1)
    if k = PARAMETER then cvl_walk kinds w pop
    else if cvl_legal k then (w + 1, pop, false)
    else if k = POOL_DECL then cvl_walk kinds w true
    else (w + 1, pop, true)

/-- Outcome of `config_valid_lifetime`: where the value is stored, the
value with the comments/skip flag it accumulated, and the issue-counter
increment. -/
structure CVLResult : Type where
  toIndex : Nat
  value : Element
  issueDelta : Nat

/-- `config_valid_lifetime` (parse.c).  In the unsupported case the
comment is attached and the skip flag set inside the loop, before the
`pop_from_pool` comment is considered after it. -/
def config_valid_lifetime (kinds : Nat → DeclKind) (stack_top : Nat)
    (value : Element) : CVLResult :=
  let (w, pop, unsup) := cvl_walk kinds stack_top false
  let value :=
    if unsup then setSkip (addComment value "/// valid-lifetime in unsupported scope")
    else value
  let value :=
    if pop then addComment value "/// valid-lifetime moved from an internal pool scope"
    else value
  { toIndex := w, value := value, issueDelta := if unsup then 1 else 0 }

/-! ## Shared helper facts -/

/-- Every map key tested by one of the three classifiers, in source
order: the data set, the numeric set, the boolean set. -/
def recognized_keys : List String :=
  ["substring", "suffix", "lowercase", "uppercase", "option", "hardware",
   "packet", "concat", "encapsulate", "encode-int8", "encode-int16",
   "encode-int32", "gethostbyname", "binary-to-ascii", "filename",
   "server-name", "reverse", "pick-first-value", "host-decl-name",
   "leased-address", "config-option", "null", "gethostname", "v6relay",
   "extract-int8", "extract-int16", "extract-int32", "lease-time", "add",
   "subtract", "multiply", "divide", "remainder", "binary-and", "binary-or",
   "binary-xor", "client-state",
   "check", "exists", "variable-exists", "equal", "not-equal", "regex-match",
   "iregex-match", "and", "or", "not", "known", "static"]

theorem mapContains_singleton (k key : String) (c : Element) :
    mapContains (mapSet createMap c k) key = (k == key) := by
  simp [mapContains, mapSet, createMap]

/-- A single-entry map whose key is recognized by none of the three
classifiers is classified `context_any`. -/
theorem expression_context_unrecognized (k : String) (c : Element)
    (h : k ∉ recognized_keys) :
    expression_context (mapSet createMap c k) = context_any := by
  have hne : ∀ s ∈ recognized_keys, (k == s) = false := by
    intro s hs
    exact beq_eq_false_iff_ne.mpr (fun e => h (e ▸ hs))
  have hval : (mapSet createMap c k).val = ElemVal.vmap [(k, c)] := rfl
  simp only [expression_context, is_data_expression, is_numeric_expression,
    is_boolean_expression, mapContains_singleton, hval]
  simp only [recognized_keys] at hne
  simp [hne]

/-- The element a variable reference parses to. -/
def varRef (s : String) : Element :=
  mapSet createMap (setSkip (createString s)) "variable-reference"

/-! ## Claim C2 -/

/-- C2 counterexample: the classifier maps an Integer element to
`context_data`, not `context_numeric` as claimed — integer literals are in
the data set, which `expression_context` tries first. -/
theorem C2_classifier_integer_counterexample :
    expression_context (createInt 5) = context_data ∧
    context_data ≠ context_numeric := by
  exact ⟨rfl, by decide⟩

/-- C2 (amended): the expression-context classifier is a pure function of
shape; an Integer element classifies `context_data` (not Numeric: the data
predicate, which includes integer literals, is tested first), a String
element Data, a map keyed `"and"` Boolean, a map keyed `"concat"` Data, a
map with an unrecognized key `context_any`, and `context_any` is accepted
as compatible with every context by the binary-operand validation. -/
theorem C2_expression_context_classifier :
    (∀ n : Int, expression_context (createInt n) = context_data) ∧
    (∀ s : String, expression_context (createString s) = context_data) ∧
    (∀ c : Element, expression_context (mapSet createMap c "and") = context_boolean) ∧
    (∀ c : Element, expression_context (mapSet createMap c "concat") = context_data) ∧
    (∀ (k : String) (c : Element), k ∉ recognized_keys →
      expression_context (mapSet createMap c k) = context_any) ∧
    (∀ c : ExprContext, operands_compatible context_any c = true ∧
      operands_compatible c context_any = true) := by
  refine ⟨fun n => rfl, fun s => rfl, fun c => rfl, fun c => rfl,
    fun k c h => expression_context_unrecognized k c h, fun c => ?_⟩
  cases c <;> exact ⟨rfl, rfl⟩

/-- C2 witness: the amended classifier facts instantiated at concrete
nodes, the unrecognized-key hypothesis discharged for the key
`"funcall"`. -/
theorem C2_expression_context_classifier_witness :
    expression_context (createInt 5) = context_data ∧
    expression_context (mapSet createMap createNull "funcall") = context_any ∧
    operands_compatible context_any context_boolean = true := by
  refine ⟨C2_expression_context_classifier.1 5, ?_, ?_⟩
  · exact C2_expression_context_classifier.2.2.2.2.1 _ createNull (by decide)
  · exact (C2_expression_context_classifier.2.2.2.2.2 context_boolean).1

/-! ## Claim C3 -/

/-- C3 counterexample: a binary-equal node (map keyed `"equal"`) is
classified `context_boolean`, not `context_data` as claimed. -/
theorem C3_equal_classifies_boolean_counterexample :
    expression_context (mk_binary "equal" (createInt 1) (createInt 2)) ≠
      context_data := by
  decide

/-- C3 (amended): re-classifying a node produced by the classifier's
domain never fails — `expression_context` is total — and every map whose
top-level key is `"equal"` classifies `context_boolean` (`"equal"` is in
the boolean-producing set, not the data set). -/
theorem C3_reclassify_equal :
    ∀ c : Element, expression_context (mapSet createMap c "equal") =
      context_boolean := by
  intro c; rfl

/-! ## Claim C10 -/

/-- C10: every binary combination `parse_expression` builds — the final
one and the intermediate left-associated ones, both made by `mk_binary` —
is a map holding, under the operator's canonical-name key, a node with
exactly the children `"left"` and `"right"` whose skip flag is set,
whatever the operands' own skip flags; concretely, parsing
`a + b * c` builds the intermediate `add` combination and the final
`multiply` combination in exactly this shape. -/
theorem C10_binary_node_shape :
    (∀ (name : String) (l r : Element),
      mk_binary name l r = Element.mk (.vmap [(name, binary_inner l r)]) false [] ∧
      binary_inner l r = Element.mk (.vmap [("left", l), ("right", r)]) true [] ∧
      (binary_inner l r).skip = true) ∧
    parse_expression 30 context_numeric none expr_none
        ⟨[.NAME "a", .PLUS, .NAME "b", .ASTERISK, .NAME "c"], 0, false⟩ =
      .ok (.ok (mk_binary "multiply" (mk_binary "add" (varRef "a") (varRef "b"))
                  (varRef "c"))
             ⟨[], 3, false⟩) :=
  ⟨fun _ _ _ => ⟨rfl, rfl, rfl⟩, rfl⟩

/-! ## Claim C1 -/

/-- C1 counterexample: the numeric-context parse of the token sequence
`1 + 2 * 3` does not produce `add(1, multiply(2,3))` — it aborts with the
fatal error "expecting numeric expressions", because the integer literal
operands classify as `context_data` while additive operands must be
Numeric or Any. -/
theorem C1_precedence_counterexample :
    parse_expression 30 context_numeric none expr_none
        ⟨[.NUMBER "1", .PLUS, .NUMBER "2", .ASTERISK, .NUMBER "3"], 0, false⟩ =
      .error "expecting numeric expressions" := rfl

/-- C1 (amended): the numeric-context parse of `1 + 2 * 3` fails fatally
("expecting numeric expressions": integer literals classify as Data); and
multiplicative operators do not bind tighter than additive ones — `op_val`
gives additive 2 and multiplicative 1 with recursion only on
`op_precedence < 0`, so the pending additive combination is built first:
with type-compatible variable operands, `a + b * c` parses to
`multiply(add(a,b),c)`, not `add(a,multiply(b,c))`. -/
theorem C1_precedence :
    parse_expression 30 context_numeric none expr_none
        ⟨[.NUMBER "1", .PLUS, .NUMBER "2", .ASTERISK, .NUMBER "3"], 0, false⟩ =
      .error "expecting numeric expressions" ∧
    op_precedence expr_add expr_multiply = 1 ∧
    ¬ op_precedence expr_add expr_multiply < 0 ∧
    parse_expression 30 context_numeric none expr_none
        ⟨[.NAME "a", .PLUS, .NAME "b", .ASTERISK, .NAME "c"], 0, false⟩ =
      .ok (.ok (mk_binary "multiply" (mk_binary "add" (varRef "a") (varRef "b"))
                  (varRef "c"))
             ⟨[], 3, false⟩) :=
  ⟨rfl, rfl, by decide, rfl⟩

/-! ## Claim C4 -/

/-- A text whose digit loop succeeds cannot start with a minus: the digit
cascade rejects every character below '0'. -/
theorem conv_digits_head_ne_minus {base : Nat} {c : Char} {t : List Char}
    {v : Nat} (h : conv_digits base (c :: t) 0 = .ok v) : c ≠ '-' := by
  intro e
  subst e
  simp [conv_digits, digit_val] at h

/-- Behaviour of `convert_num_core` on a successfully decoded magnitude at
the three supported widths: range check against the signed/unsigned bound,
then big-endian store. -/
theorem convert_num_core_spec (negative : Bool) (digits : List Char)
    (base size v : Nat) (hd : digits ≠ [])
    (hv : conv_digits base digits 0 = .ok v)
    (hs : size = 8 ∨ size = 16 ∨ size = 32) :
    convert_num_core negative digits base size =
      if v > (if negative then 2 ^ (size - 1) else 2 ^ size - 1)
      then .error .overflow
      else .ok (encode_be (size / 8)
                  (if negative then (2 ^ 32 - v) % 2 ^ 32 else v)) := by
  have hde : digits.isEmpty = false := by
    cases digits
    · exact absurd rfl hd
    · rfl
  rcases hs with h | h | h <;> subst h <;> cases negative <;>
    simp [convert_num_core, hde, hv]

/-- C4: for every digit run that decodes, at each width in {8,16,32} and
explicit base, `convert_num` checks the magnitude against `2 ^ (width-1)`
when the text has a leading minus and `2 ^ width - 1` otherwise, fails
with the Overflow condition beyond the bound, and otherwise stores the
value (two's complement when negative) big-endian at the requested width;
in particular `"0xFF"` at width 8 decodes to byte 255, `"-128"` at width 8
to the two's-complement byte 0x80, and `"256"` at width 8 overflows. -/
theorem C4_convert_num_range_check (digits : List Char) (base size v : Nat)
    (hb : base ≠ 0) (hs : size = 8 ∨ size = 16 ∨ size = 32)
    (hd : digits ≠ []) (hv : conv_digits base digits 0 = .ok v) :
    (convert_num ('-' :: digits) base size =
      if v > 2 ^ (size - 1) then .error .overflow
      else .ok (encode_be (size / 8) ((2 ^ 32 - v) % 2 ^ 32))) ∧
    (convert_num digits base size =
      if v > 2 ^ size - 1 then .error .overflow
      else .ok (encode_be (size / 8) v)) ∧
    convert_num "0xFF".toList 0 8 = .ok [255] ∧
    convert_num "-128".toList 0 8 = .ok [128] ∧
    convert_num "256".toList 0 8 = .error .overflow := by
  refine ⟨?_, ?_, rfl, rfl, rfl⟩
  · have : convert_num ('-' :: digits) base size =
        convert_num_core true digits base size := by
      simp [convert_num, sign_split, hb]
    rw [this, convert_num_core_spec true digits base size v hd hv hs]
    simp
  · rcases hdigits : digits with _ | ⟨c, t⟩
    · exact absurd hdigits hd
    · have hc : c ≠ '-' := conv_digits_head_ne_minus (hdigits ▸ hv)
      have : convert_num (c :: t) base size =
          convert_num_core false (c :: t) base size := by
        simp [convert_num, sign_split, hb, hc]
      rw [this, convert_num_core_spec false (c :: t) base size v
        (by simp) (hdigits ▸ hv) hs]
      simp

/-- C4 witness: the range-check theorem applied to the decimal text "25"
at width 8, on both the negative and positive sides. -/
theorem C4_convert_num_range_check_witness :
    (convert_num ('-' :: "25".toList) 10 8 =
      if 25 > 2 ^ (8 - 1) then .error .overflow
      else .ok (encode_be (8 / 8) ((2 ^ 32 - 25) % 2 ^ 32))) ∧
    (convert_num "25".toList 10 8 =
      if 25 > 2 ^ 8 - 1 then .error .overflow
      else .ok (encode_be (8 / 8) 25)) := by
  have h := C4_convert_num_range_check "25".toList 10 8 25 (by decide)
    (Or.inl rfl) (by decide) rfl
  exact ⟨h.1, h.2.1⟩

/-! ## Claim C5 -/

/-- When a nonzero maximum is requested, a successful aggregate loop run
reports exactly that count through the out-parameter. -/
theorem pna_loop_count (max : Nat) (sep : Token) (base size : Nat)
    (hmax : max ≠ 0) :
    ∀ (fuel : Nat) (st : PState) (count : Nat) (acc bytes : List Nat)
      (cnt : Nat) (st' : PState),
      pna_loop max sep base size fuel st count acc = .ok (bytes, cnt, st') →
      cnt = max := by
  intro fuel
  induction fuel with
  | zero =>
    intro st count acc bytes cnt st' h
    simp [pna_loop] at h
  | succ n ih =>
    intro st count acc bytes cnt st' h
    rw [pna_loop] at h
    dsimp only at h
    repeat' split at h
    all_goals
      first
        | exact Except.noConfusion h
        | exact ih _ _ _ _ _ _ h
        | (next hm => exact absurd hm hmax)
        | (simp only [Except.ok.injEq, Prod.mk.injEq] at h
           obtain ⟨-, h2, -⟩ := h
           omega)

/-- C5: with a nonzero `max_count` the aggregate parser reports exactly
`max_count` elements through the `max` out-parameter on success and fails
with "too few numbers" when the separator is missing early; premature end
of input is fatal; `"192.168.1.10"` (max 4, base 10, sep `.`, width 8)
yields bytes {192,168,1,10}, and `"aa:bb:cc"` (max 0, base 16, sep `:`)
yields {0xAA,0xBB,0xCC} with count 3, stopping when the separator is
absent. -/
theorem C5_parse_numeric_aggregate :
    (∀ (max : Nat) (sep : Token) (base size : Nat) (st : PState)
       (bytes : List Nat) (cnt : Nat) (st' : PState),
       max ≠ 0 →
       parse_numeric_aggregate st max sep base size = .ok (bytes, cnt, st') →
       cnt = max) ∧
    (∀ (max : Nat) (sep : Token) (base size issues : Nat) (lose : Bool),
       parse_numeric_aggregate ⟨[], issues, lose⟩ max sep base size =
         .error "unexpected end of file") ∧
    parse_numeric_aggregate ⟨[.NUMBER "192", .DOT, .NUMBER "168", .DOT,
        .NUMBER "1", .DOT, .NUMBER "10"], 0, false⟩ 4 .DOT 10 8 =
      .ok ([192, 168, 1, 10], 4, ⟨[], 0, false⟩) ∧
    parse_numeric_aggregate ⟨[.NUMBER_OR_NAME "aa", .COLON,
        .NUMBER_OR_NAME "bb", .COLON, .NUMBER_OR_NAME "cc", .SEMI],
        0, false⟩ 0 .COLON 16 8 =
      .ok ([0xAA, 0xBB, 0xCC], 3, ⟨[.SEMI], 0, false⟩) ∧
    parse_numeric_aggregate ⟨[.NUMBER "192", .SEMI], 0, false⟩ 4 .DOT 10 8 =
      .error "too few numbers." := by
  refine ⟨?_, ?_, rfl, rfl, rfl⟩
  · intro max sep base size st bytes cnt st' hmax h
    exact pna_loop_count max sep base size hmax _ _ _ _ _ _ _ h
  · intro max sep base size issues lose
    simp [parse_numeric_aggregate, pna_loop, peek, advance]

/-- C5 witness: the count theorem applied to the concrete
`"192.168.1.10"` run, and the end-of-input case at concrete
parameters. -/
theorem C5_parse_numeric_aggregate_witness :
    (4 : Nat) = 4 ∧
    parse_numeric_aggregate ⟨[], 0, false⟩ 4 .DOT 10 8 =
      .error "unexpected end of file" :=
  ⟨C5_parse_numeric_aggregate.1 4 .DOT 10 8
      ⟨[.NUMBER "192", .DOT, .NUMBER "168", .DOT, .NUMBER "1", .DOT,
        .NUMBER "10"], 0, false⟩ [192, 168, 1, 10] 4 ⟨[], 0, false⟩
      (by decide) rfl,
    C5_parse_numeric_aggregate.2.1 4 .DOT 10 8 0 false⟩

/-! ## Claim C6 -/

/-- C6: a switch's condition is parsed at `context_data_or_numeric` and
its `is_data_expression` classification fixes the case context for the
nested cases — the same `case 2:` body parses to an Integer case under a
non-data (variable) condition, and takes the data path (the
colon-separated-hex parse, which here consumes the case's colon and
fatally errors) under a data (string) condition, while a string case under
a data condition succeeds; and a bare `case` or `default` statement where
the surrounding case context is `context_any` is a fatal "inappropriate
scope" error. -/
theorem C6_switch_case_context :
    parse_switch_statement 40 ⟨[.LPAREN, .NAME "x", .RPAREN, .LBRACE,
        .CASE, .NUMBER "2", .COLON, .RBRACE], 0, false⟩ =
      .ok (.ok (mk_switch (varRef "x")
            (Element.mk (.vlist [mapSet createMap (createInt 2) "case"]) false []))
          ⟨[], 2, false⟩) ∧
    parse_switch_statement 40 ⟨[.LPAREN, .STRING "s", .RPAREN, .LBRACE,
        .CASE, .STRING "v", .COLON, .RBRACE], 0, false⟩ =
      .ok (.ok (mk_switch (createString "s")
            (Element.mk (.vlist [mapSet createMap (createString "v") "case"]) false []))
          ⟨[], 1, false⟩) ∧
    parse_switch_statement 40 ⟨[.LPAREN, .STRING "s", .RPAREN, .LBRACE,
        .CASE, .NUMBER "2", .COLON, .RBRACE], 0, false⟩ =
      .error "expecting hexadecimal number." ∧
    is_data_expression (createString "s") = true ∧
    is_data_expression (varRef "x") = false ∧
    (∀ (rest : List Token) (issues : Nat) (lose : Bool) (fuel : Nat),
      parse_executable_statement (fuel + 1) context_any
          ⟨.CASE :: rest, issues, lose⟩ =
        .error "case statement in inappropriate scope.") ∧
    (∀ (rest : List Token) (issues : Nat) (lose : Bool) (fuel : Nat),
      parse_executable_statement (fuel + 1) context_any
          ⟨.DEFAULT :: .COLON :: rest, issues, lose⟩ =
        .error "switch default statement in inappropriate scope.") := by
  refine ⟨rfl, rfl, rfl, rfl, rfl, ?_, ?_⟩ <;>
    (intro rest issues lose fuel; rfl)

/-! ## Claim C7 -/

/-- C7 counterexample: a condition that does not classify Boolean is not
always a fatal error — a bare variable reference (classified
`context_any`) is accepted as an if condition. -/
theorem C7_if_nonboolean_condition_counterexample :
    parse_if_statement 40 ⟨[.NAME "x", .LBRACE, .RBRACE], 0, false⟩ =
      .ok (.ok (mk_if (varRef "x") createList none) ⟨[], 2, false⟩) ∧
    expression_context (varRef "x") ≠ context_boolean := by
  exact ⟨rfl, by decide⟩

/-- C7 (amended): an if/elsif/else chain produces a single root `"if"` map
whose condition must be a boolean expression, a variable reference, or a
function call (anything else is a fatal error); optional parentheses are
consumed and leave no trace; the `elsif` tail is stored as the `"else"`
child being itself an `"if"` map with no extra nesting; the braced else
branch is a statement list. -/
theorem C7_if_statement :
    parse_if_statement 40 ⟨[.LPAREN, .NAME "a", .EQUAL, .STRING "x", .RPAREN,
        .LBRACE, .RBRACE, .ELSIF, .LPAREN, .NAME "b", .EQUAL, .STRING "y",
        .RPAREN, .LBRACE, .RBRACE, .ELSE, .LBRACE, .RBRACE], 0, false⟩ =
      .ok (.ok (mk_if (mk_binary "equal" (varRef "a") (createString "x"))
            createList
            (some (mk_if (mk_binary "equal" (varRef "b") (createString "y"))
                     createList (some createList))))
          ⟨[], 4, false⟩) ∧
    expression_context (mk_binary "equal" (varRef "a") (createString "x")) =
      context_boolean ∧
    (∀ (fuel : Nat) (st : PState) (e : Element) (st' : PState),
      parse_boolean_expression (fuel + 1) st = .ok (.ok e st') →
      (is_boolean_expression e || mapContains e "variable-reference" ||
        mapContains e "funcall") = true) := by
  refine ⟨rfl, rfl, ?_⟩
  intro fuel st e st' h
  rw [parse_boolean_expression] at h
  rcases hx : parse_expression fuel context_boolean none expr_none st with e0 | r
  · rw [hx] at h
    exact Except.noConfusion h
  · rw [hx] at h
    rcases r with ⟨e1, st1⟩ | st1
    · dsimp only at h
      split at h
      · exact Except.noConfusion h
      · next hc =>
        simp only [Except.ok.injEq, POut.ok.injEq] at h
        obtain ⟨he, -⟩ := h
        subst he
        simp only [Bool.and_eq_true, Bool.not_eq_true', Bool.not_eq_true] at hc
        rcases Bool.eq_false_or_eq_true (is_boolean_expression e1) with hb | hb <;>
          rcases Bool.eq_false_or_eq_true (mapContains e1 "variable-reference") with hv | hv <;>
          rcases Bool.eq_false_or_eq_true (mapContains e1 "funcall") with hf | hf <;>
          simp [hb, hv, hf] at hc ⊢
    · exact absurd h (by simp)

/-- C7 witness: the boolean-or-variable-or-funcall guarantee applied to
the concrete condition parse of `a = "x"`. -/
theorem C7_if_statement_witness :
    (is_boolean_expression (mk_binary "equal" (varRef "a") (createString "x")) ||
      mapContains (mk_binary "equal" (varRef "a") (createString "x"))
        "variable-reference" ||
      mapContains (mk_binary "equal" (varRef "a") (createString "x"))
        "funcall") = true :=
  C7_if_statement.2.2 39 ⟨[.NAME "a", .EQUAL, .STRING "x"], 0, false⟩
    (mk_binary "equal" (varRef "a") (createString "x")) ⟨[], 1, false⟩ rfl

/-! ## Claim C8 -/

theorem cvl_legal_ne_parameter {k : DeclKind} (h : cvl_legal k = true) :
    k ≠ DeclKind.PARAMETER ∧ k ≠ DeclKind.POOL_DECL := by
  cases k <;> simp_all [cvl_legal]

theorem addComment_skip (e : Element) (s : String) :
    (addComment e s).skip = e.skip := by
  cases e; rfl

theorem addComment_comments (e : Element) (s : String) :
    (addComment e s).comments = e.comments ++ [s] := by
  cases e; rfl

theorem setSkip_skip (e : Element) : (setSkip e).skip = true := by
  cases e; rfl

theorem setSkip_comments (e : Element) : (setSkip e).comments = e.comments := by
  cases e; rfl

/-- Walking down over parameter/pool frames lands exactly on the first
frame `i` of any other kind; the unsupported flag records whether the
landing kind is illegal; a pool flag already raised survives the walk. -/
theorem cvl_walk_land (kinds : Nat → DeclKind) (i : Nat)
    (hp : kinds i ≠ DeclKind.PARAMETER) (hq : kinds i ≠ DeclKind.POOL_DECL) :
    ∀ top, 1 ≤ i → i ≤ top →
      (∀ j, i < j → j ≤ top → kinds j = DeclKind.PARAMETER ∨
        kinds j = DeclKind.POOL_DECL) →
      ∀ pop, (cvl_walk kinds top pop).1 = i ∧
        (cvl_walk kinds top pop).2.2 = !cvl_legal (kinds i) ∧
        (pop = true → (cvl_walk kinds top pop).2.1 = true) := by
  intro top
  induction top with
  | zero => intro hi hle; omega
  | succ w ihw =>
    intro hi hle hall pop
    by_cases he : i = w + 1
    · subst he
      by_cases hleg : cvl_legal (kinds (w + 1)) = true <;>
        simp [cvl_walk, hp, hq, hleg]
    · have hlew : i ≤ w := by omega
      have hall' : ∀ j, i < j → j ≤ w → kinds j = DeclKind.PARAMETER ∨
          kinds j = DeclKind.POOL_DECL :=
        fun j h1 h2 => hall j h1 (by omega)
      rcases hall (w + 1) (by omega) (by omega) with hk | hk
      · simpa [cvl_walk, hk] using ihw hi hlew hall' pop
      · have hh := ihw hi hlew hall' true
        have e1 : cvl_walk kinds (w + 1) pop = cvl_walk kinds w true := by
          simp [cvl_walk, hk, cvl_legal]
        rw [e1]
        exact ⟨hh.1, hh.2.1, fun _ => hh.2.2 rfl⟩

/-- If some pool frame sits between the landing frame and the top, the
walk reports `pop_from_pool`. -/
theorem cvl_walk_pool (kinds : Nat → DeclKind) (i : Nat)
    (hp : kinds i ≠ DeclKind.PARAMETER) (hq : kinds i ≠ DeclKind.POOL_DECL) :
    ∀ top, 1 ≤ i → i ≤ top →
      (∀ j, i < j → j ≤ top → kinds j = DeclKind.PARAMETER ∨
        kinds j = DeclKind.POOL_DECL) →
      ∀ j, i < j → j ≤ top → kinds j = DeclKind.POOL_DECL →
      (cvl_walk kinds top false).2.1 = true := by
  intro top
  induction top with
  | zero => intro hi hle; omega
  | succ w ihw =>
    intro hi hle hall j hj1 hj2 hjp
    have hlew : i ≤ w := by omega
    have hall' : ∀ j, i < j → j ≤ w → kinds j = DeclKind.PARAMETER ∨
        kinds j = DeclKind.POOL_DECL :=
      fun j h1 h2 => hall j h1 (by omega)
    rcases hall (w + 1) (by omega) (by omega) with hk | hk
    · have hj2' : j ≤ w := by
        by_contra hcon
        have hj : j = w + 1 := by omega
        rw [hj, hk] at hjp
        exact DeclKind.noConfusion hjp
      simpa [cvl_walk, hk] using ihw hi hlew hall' j hj1 hj2' hjp
    · have hh := cvl_walk_land kinds i hp hq w hi hlew hall' true
      simpa [cvl_walk, hk, cvl_legal] using hh.2.2 rfl

/-- C8: `config_valid_lifetime` walks the stack innermost to outermost
skipping parameter-block frames; pool frames are skipped too, and when the
walk lands on a root/shared-network/subnet/group frame the value is stored
at that frame with the "moved from an internal pool scope" annotation
whenever a pool was passed, without counting an issue; when the walk
instead first reaches a frame of any other kind, the value is stored at
that frame flagged skip, with the "unsupported scope" annotation, and the
issue counter is incremented. -/
theorem C8_valid_lifetime_scope_rewrite
    (kinds : Nat → DeclKind) (top i : Nat) (value : Element)
    (hi : 1 ≤ i) (hle : i ≤ top)
    (hall : ∀ j, i < j → j ≤ top → kinds j = DeclKind.PARAMETER ∨
      kinds j = DeclKind.POOL_DECL) :
    (cvl_legal (kinds i) = true →
      (config_valid_lifetime kinds top value).toIndex = i ∧
      (config_valid_lifetime kinds top value).issueDelta = 0 ∧
      (∀ j, i < j → j ≤ top → kinds j = DeclKind.POOL_DECL →
        "/// valid-lifetime moved from an internal pool scope" ∈
          (config_valid_lifetime kinds top value).value.comments)) ∧
    (kinds i ≠ DeclKind.PARAMETER → kinds i ≠ DeclKind.POOL_DECL →
      cvl_legal (kinds i) = false →
      (config_valid_lifetime kinds top value).toIndex = i ∧
      (config_valid_lifetime kinds top value).value.skip = true ∧
      "/// valid-lifetime in unsupported scope" ∈
        (config_valid_lifetime kinds top value).value.comments ∧
      (config_valid_lifetime kinds top value).issueDelta = 1) := by
  constructor
  · intro hleg
    obtain ⟨hp, hq⟩ := cvl_legal_ne_parameter hleg
    obtain ⟨h1, h2, -⟩ := cvl_walk_land kinds i hp hq top hi hle hall false
    rcases hcw : cvl_walk kinds top false with ⟨w0, pop0, unsup0⟩
    rw [hcw] at h1 h2
    simp only at h1 h2
    have hunsup : unsup0 = false := by simp [h2, hleg]
    refine ⟨?_, ?_, ?_⟩
    · simp [config_valid_lifetime, hcw, h1]
    · simp [config_valid_lifetime, hcw, hunsup]
    · intro j hj1 hj2 hjp
      have hpop := cvl_walk_pool kinds i hp hq top hi hle hall j hj1 hj2 hjp
      rw [hcw] at hpop
      simp only at hpop
      simp [config_valid_lifetime, hcw, hunsup, hpop, addComment_comments]
  · intro hp hq hleg
    obtain ⟨h1, h2, -⟩ := cvl_walk_land kinds i hp hq top hi hle hall false
    rcases hcw : cvl_walk kinds top false with ⟨w0, pop0, unsup0⟩
    rw [hcw] at h1 h2
    simp only at h1 h2
    have hunsup : unsup0 = true := by simp [h2, hleg]
    refine ⟨?_, ?_, ?_, ?_⟩
    · simp [config_valid_lifetime, hcw, h1]
    · cases pop0 <;>
        simp [config_valid_lifetime, hcw, hunsup, addComment_skip, setSkip_skip]
    · cases pop0 <;>
        simp [config_valid_lifetime, hcw, hunsup, addComment_comments,
          setSkip_comments]
    · simp [config_valid_lifetime, hcw, hunsup]

/-- Concrete stack for the pool scenario: root, subnet, pool (innermost). -/
def cvl_stack_pool : Nat → DeclKind := fun j =>
  [DeclKind.ROOT_GROUP, DeclKind.SUBNET_DECL, DeclKind.POOL_DECL].getD j
    DeclKind.ROOT_GROUP

/-- Concrete stack for the unsupported scenario: root, host (innermost). -/
def cvl_stack_host : Nat → DeclKind := fun j =>
  [DeclKind.ROOT_GROUP, DeclKind.HOST_DECL].getD j DeclKind.ROOT_GROUP

/-- C8 witness: the rewrite theorem applied to a pool-inside-subnet stack
(the value lands on the subnet frame with the move annotation) and to a
host-declaration stack (flagged skip, unsupported annotation, one
issue). -/
theorem C8_valid_lifetime_scope_rewrite_witness :
    (config_valid_lifetime cvl_stack_pool 2 createNull).toIndex = 1 ∧
    "/// valid-lifetime moved from an internal pool scope" ∈
      (config_valid_lifetime cvl_stack_pool 2 createNull).value.comments ∧
    (config_valid_lifetime cvl_stack_host 1 createNull).toIndex = 1 ∧
    (config_valid_lifetime cvl_stack_host 1 createNull).value.skip = true ∧
    "/// valid-lifetime in unsupported scope" ∈
      (config_valid_lifetime cvl_stack_host 1 createNull).value.comments ∧
    (config_valid_lifetime cvl_stack_host 1 createNull).issueDelta = 1 := by
  have hallp : ∀ j, 1 < j → j ≤ 2 → cvl_stack_pool j = DeclKind.PARAMETER ∨
      cvl_stack_pool j = DeclKind.POOL_DECL := by
    intro j h1 h2
    have : j = 2 := by omega
    subst this
    exact Or.inr rfl
  have hallh : ∀ j, 1 < j → j ≤ 1 → cvl_stack_host j = DeclKind.PARAMETER ∨
      cvl_stack_host j = DeclKind.POOL_DECL := by
    intro j h1 h2; omega
  have ha := (C8_valid_lifetime_scope_rewrite cvl_stack_pool 2 1 createNull
    (by omega) (by omega) hallp).1 (by decide)
  have hb := (C8_valid_lifetime_scope_rewrite cvl_stack_host 1 1 createNull
    (by omega) (by omega) hallh).2 (by decide) (by decide) (by decide)
  exact ⟨ha.1, ha.2.2 2 (by omega) (by omega) rfl, hb.1, hb.2.1, hb.2.2.1,
    hb.2.2.2⟩

/-! ## Claim C9 -/

theorem except_bind_ok {α β : Type} {x : Except String α} {f : α → Except String β}
    {b : β} (h : x >>= f = .ok b) : ∃ a, x = .ok a ∧ f a = .ok b := by
  cases x with
  | error e => exact Except.noConfusion h
  | ok a => exact ⟨a, rfl, h⟩

theorem mapContains_false_count {m : Element} {k : String}
    (h : mapContains m k = false) : mapCount m k = 0 := by
  rcases m with ⟨v, sk, c⟩
  cases v with
  | vmap es =>
    simp only [mapContains, List.any_eq_false] at h
    simp only [mapCount, List.length_eq_zero, List.filter_eq_nil_iff]
    intro p hp
    simpa using h p hp
  | vnull => rfl
  | vbool b => rfl
  | vint n => rfl
  | vstr s => rfl
  | vlist es => rfl

/-- Setting an absent key cannot push any key's multiplicity above one. -/
theorem mapCount_mapSet_le (m v : Element) (key k : String)
    (hc : mapContains m key = false) (h : mapCount m k ≤ 1) :
    mapCount (mapSet m v key) k ≤ 1 := by
  rcases m with ⟨mv, sk, c⟩
  cases mv with
  | vmap es =>
    by_cases hk : key = k
    · subst hk
      have h0 : mapCount (Element.mk (.vmap es) sk c) key = 0 :=
        mapContains_false_count hc
      simp only [mapCount, mapSet, List.filter_append, List.length_append]
      simp only [mapCount] at h0
      simp [h0]
    · simp only [mapCount, mapSet, List.filter_append, List.length_append]
      have hnil : List.filter (fun p => p.1 == k) [(key, v)] = [] := by
        simp [hk]
      simp only [mapCount] at h
      simp [hnil, h]
  | vnull => simpa [mapSet] using h
  | vbool b => simpa [mapSet] using h
  | vint n => simpa [mapSet] using h
  | vstr s => simpa [mapSet] using h
  | vlist es => simpa [mapSet] using h

/-- The zone statement loop preserves "each key stored at most once". -/
theorem parse_zone_body_count (ip4 ip6 host : LeafParser) (k : String) :
    ∀ (fuel : Nat) (zone : Element) (st : PState) (z' : Element) (st' : PState),
      parse_zone_body ip4 ip6 host fuel zone st = .ok (z', st') →
      mapCount zone k ≤ 1 → mapCount z' k ≤ 1 := by
  intro fuel
  induction fuel with
  | zero =>
    intro zone st z' st' h hc
    simp [parse_zone_body] at h
  | succ n ih =>
    intro zone st z' st' h hc
    rw [parse_zone_body] at h
    split at h
    · -- PRIMARY
      split at h
      · exact Except.noConfusion h
      · next hcf =>
        split at h
        · exact Except.noConfusion h
        · exact ih _ _ _ _ h
            (mapCount_mapSet_le _ _ _ _ (by simpa using hcf) hc)
    · -- SECONDARY
      split at h
      · exact Except.noConfusion h
      · next hcf =>
        split at h
        · exact Except.noConfusion h
        · exact ih _ _ _ _ h
            (mapCount_mapSet_le _ _ _ _ (by simpa using hcf) hc)
    · -- PRIMARY6
      split at h
      · exact Except.noConfusion h
      · next hcf =>
        split at h
        · exact Except.noConfusion h
        · exact ih _ _ _ _ h
            (mapCount_mapSet_le _ _ _ _ (by simpa using hcf) hc)
    · -- SECONDARY6
      split at h
      · exact Except.noConfusion h
      · next hcf =>
        split at h
        · exact Except.noConfusion h
        · exact ih _ _ _ _ h
            (mapCount_mapSet_le _ _ _ _ (by simpa using hcf) hc)
    · -- KEY
      split at h
      · exact Except.noConfusion h
      · split at h
        · exact Except.noConfusion h
        · next hcf =>
          split at h
          · exact Except.noConfusion h
          · exact ih _ _ _ _ h
              (mapCount_mapSet_le _ _ _ _ (by simpa using hcf) hc)
    · -- default: loop exit
      simp only [Except.ok.injEq, Prod.mk.injEq] at h
      obtain ⟨h1, -⟩ := h
      subst h1
      exact hc

/-- C9: within one zone block each of `primary`, `secondary`, `primary6`,
`secondary6` and `key` may be set at most once — a second occurrence of
any of them is a fatal parse error, and a successful `parse_zone` yields a
zone map holding each of these keys at most once — for every behaviour of
the three leaf value parsers. -/
theorem C9_parse_zone_unique_keys :
    (∀ (ip4 ip6 host : LeafParser) (fuel : Nat) (zone : Element)
       (rest : List Token) (issues : Nat) (lose : Bool),
       mapContains zone "primary" = true →
       parse_zone ip4 ip6 host (fuel + 1) zone
           ⟨.LBRACE :: .PRIMARY :: rest, issues, lose⟩ =
         .error "more than one primary.") ∧
    (∀ (ip4 ip6 host : LeafParser) (fuel : Nat) (zone : Element)
       (rest : List Token) (issues : Nat) (lose : Bool),
       mapContains zone "secondary" = true →
       parse_zone ip4 ip6 host (fuel + 1) zone
           ⟨.LBRACE :: .SECONDARY :: rest, issues, lose⟩ =
         .error "more than one secondary.") ∧
    (∀ (ip4 ip6 host : LeafParser) (fuel : Nat) (zone : Element)
       (rest : List Token) (issues : Nat) (lose : Bool),
       mapContains zone "primary6" = true →
       parse_zone ip4 ip6 host (fuel + 1) zone
           ⟨.LBRACE :: .PRIMARY6 :: rest, issues, lose⟩ =
         .error "more than one primary6.") ∧
    (∀ (ip4 ip6 host : LeafParser) (fuel : Nat) (zone : Element)
       (rest : List Token) (issues : Nat) (lose : Bool),
       mapContains zone "secondary6" = true →
       parse_zone ip4 ip6 host (fuel + 1) zone
           ⟨.LBRACE :: .SECONDARY6 :: rest, issues, lose⟩ =
         .error "more than one secondary6.") ∧
    (∀ (ip4 ip6 host : LeafParser) (fuel : Nat) (zone : Element)
       (s : String) (rest : List Token) (issues : Nat) (lose : Bool),
       mapContains zone "key" = true →
       parse_zone ip4 ip6 host (fuel + 1) zone
           ⟨.LBRACE :: .KEY :: .STRING s :: rest, issues, lose⟩ =
         .error "Multiple key definitions") ∧
    (∀ (ip4 ip6 host : LeafParser) (fuel : Nat) (zone : Element) (st : PState)
       (z' : Element) (st' : PState) (k : String),
       parse_zone ip4 ip6 host fuel zone st = .ok (z', st') →
       mapCount zone k ≤ 1 → mapCount z' k ≤ 1) := by
  refine ⟨?_, ?_, ?_, ?_, ?_, ?_⟩
  · intro ip4 ip6 host fuel zone rest issues lose hdup
    simp [parse_zone, parse_zone_body, peek, advance, hdup]
  · intro ip4 ip6 host fuel zone rest issues lose hdup
    simp [parse_zone, parse_zone_body, peek, advance, hdup]
  · intro ip4 ip6 host fuel zone rest issues lose hdup
    simp [parse_zone, parse_zone_body, peek, advance, hdup]
  · intro ip4 ip6 host fuel zone rest issues lose hdup
    simp [parse_zone, parse_zone_body, peek, advance, hdup]
  · intro ip4 ip6 host fuel zone s rest issues lose hdup
    simp [parse_zone, parse_zone_body, peek, advance, hdup]
  · intro ip4 ip6 host fuel zone st z' st' k h hc
    rw [parse_zone] at h
    split at h
    · exact Except.noConfusion h
    · split at h
      · exact Except.noConfusion h
      · next zoneB st1 hb =>
        split at h
        · exact Except.noConfusion h
        · simp only [Except.ok.injEq, Prod.mk.injEq] at h
          obtain ⟨h1, -⟩ := h
          subst h1
          exact parse_zone_body_count ip4 ip6 host k _ _ _ _ _ hb hc

/-- A leaf parser that resolves to a fixed address without consuming
tokens, for concrete zone runs. -/
def leafConst (s : String) : LeafParser := fun st => .ok (some (s, st))

/-- C9 witness: a second `primary` in a zone already holding one is the
fatal duplicate error, and a concrete successful parse keeps `primary`
unique. -/
theorem C9_parse_zone_unique_keys_witness :
    parse_zone (leafConst "10.0.0.1") (leafConst "::1") (leafConst "h") 5
        (mapSet createMap createList "primary")
        ⟨[.LBRACE, .PRIMARY, .SEMI, .RBRACE], 0, false⟩ =
      .error "more than one primary." ∧
    mapCount (mapSet createMap
        (Element.mk (.vlist [createString "10.0.0.1"]) false []) "primary")
      "primary" ≤ 1 := by
  constructor
  · exact C9_parse_zone_unique_keys.1 (leafConst "10.0.0.1") (leafConst "::1")
      (leafConst "h") 4 (mapSet createMap createList "primary")
      [.SEMI, .RBRACE] 0 false (by decide)
  · exact C9_parse_zone_unique_keys.2.2.2.2.2 (leafConst "10.0.0.1")
      (leafConst "::1") (leafConst "h") 5 createMap
      ⟨[.LBRACE, .PRIMARY, .SEMI, .RBRACE], 0, false⟩
      (mapSet createMap
        (Element.mk (.vlist [createString "10.0.0.1"]) false []) "primary")
      ⟨[], 0, false⟩ "primary" rfl (by decide)

end Keama
